import Mathlib

/-!
Shallow embedding of the wallet metadata module (src/wallet/meta/meta.go).

The Go type Meta is a map from string keys to string values. We model it as
a function from String to Option String: a lookup returns some v when the
key is present and none when absent. The Go indexing expression with its
default empty string is the helper Meta.get below. Go methods that mutate
the receiver map in place are modelled as functions returning the updated
map; the heap-aliasing aspect of Clone is modelled separately with an
explicit store of handles (World, below).

Functions from the Go strconv package used by the source (ParseBool,
ParseUint, ParseInt, FormatBool, FormatUint, FormatInt) are modelled after
their Go implementations, including the value returned alongside an error:
Go's ParseUint and ParseInt return a clamped maximal value together with a
range error when the input is syntactically valid but out of range.
A Go panic is modelled as the none case of an Option result.
-/

/-- Model of the Go strconv.ParseBool / strconv.ParseUint error kinds. -/
inductive ParseErr where
  | syntaxErr : ParseErr
  | rangeErr : ParseErr
deriving DecidableEq, Repr

/-- Decimal digit value of a character, none for a non-digit. -/
def digitVal (c : Char) : Option Nat :=
  if decide (c.toNat ≥ 48) && decide (c.toNat ≤ 57) then some (c.toNat - 48) else none

/-- Loop of Go strconv.ParseUint for base 10: maxVal is the largest value of
the requested bit size; the first range check mirrors the uint64 cutoff
(maxUint64 divided by the base, plus one) and the second mirrors the
combined wraparound and bit-size check. On a range error Go returns maxVal
and stops scanning; on a syntax error it returns 0. -/
def parseUintAux (maxVal : Nat) : List Char → Nat → Nat × Option ParseErr
  | [], n => (n, none)
  | c :: cs, n =>
    match digitVal c with
    | none => (0, some ParseErr.syntaxErr)
    | some d =>
      if (2 ^ 64 - 1) / 10 + 1 ≤ n then (maxVal, some ParseErr.rangeErr)
      else if maxVal < n * 10 + d then (maxVal, some ParseErr.rangeErr)
      else parseUintAux maxVal cs (n * 10 + d)

/-- Model of Go strconv.ParseUint(s, 10, bitSize) where maxVal is
2 to the bitSize minus 1. The empty string is a syntax error. -/
def parseUintGo (maxVal : Nat) (s : String) : Nat × Option ParseErr :=
  match s.data with
  | [] => (0, some ParseErr.syntaxErr)
  | cs => parseUintAux maxVal cs 0

/-- Model of Go strconv.ParseInt(s, 10, 64): optional sign, then ParseUint
with 64-bit maxVal; a syntax error yields value 0, a value at or beyond the
signed 64-bit bound yields the clamped bound together with a range error. -/
def parseInt64Go (s : String) : Int × Option ParseErr :=
  match s.data with
  | [] => (0, some ParseErr.syntaxErr)
  | c :: rest =>
    let (neg, digits) :=
      if c = '+' then (false, rest)
      else if c = '-' then (true, rest)
      else (false, c :: rest)
    let (un, err) :=
      match digits with
      | [] => (0, some ParseErr.syntaxErr)
      | ds => parseUintAux (2 ^ 64 - 1) ds 0
    match err with
    | some ParseErr.syntaxErr => (0, some ParseErr.syntaxErr)
    | _ =>
      if !neg && decide (2 ^ 63 ≤ un) then ((2 : Int) ^ 63 - 1, some ParseErr.rangeErr)
      else if neg && decide (2 ^ 63 < un) then (-(2 : Int) ^ 63, some ParseErr.rangeErr)
      else (if neg then -(un : Int) else (un : Int), err)

/-- Model of Go strconv.ParseBool: the exact strings Go accepts. -/
def parseBoolGo (s : String) : Option Bool :=
  if s = "1" ∨ s = "t" ∨ s = "T" ∨ s = "true" ∨ s = "TRUE" ∨ s = "True" then some true
  else if s = "0" ∨ s = "f" ∨ s = "F" ∨ s = "false" ∨ s = "FALSE" ∨ s = "False" then some false
  else none

/-- Model of Go strconv.FormatBool. -/
def formatBool (b : Bool) : String :=
  if b then "true" else "false"

/-- Decimal digit accumulation for FormatUint; fuel-based so that the kernel
reduces it (fuel at least the number of digits always suffices). -/
def natDigitsAux : Nat → Nat → List Char → List Char
  | 0, _, acc => acc
  | fuel + 1, n, acc =>
    let acc2 := Char.ofNat (n % 10 + 48) :: acc
    if n < 10 then acc2 else natDigitsAux fuel (n / 10) acc2

/-- Model of Go strconv.FormatUint(n, 10): decimal representation. -/
def formatUint (n : Nat) : String :=
  String.mk (natDigitsAux (n + 1) n [])

/-- Model of Go strconv.FormatInt(t, 10): a minus sign for negative values,
then the decimal representation of the magnitude. -/
def formatInt (t : Int) : String :=
  if t < 0 then "-" ++ formatUint t.natAbs else formatUint t.natAbs

/-- Unicode simple lowercase mapping, as stride ranges: a code point c with
lo ≤ c ≤ hi and c - lo divisible by the stride maps to c plus the delta.
This is the per-rune mapping behind Go strings.ToLower (the unicode package
case tables); transcribed from the Unicode character database simple case
mappings, Unicode 14.0. Covers in particular the mappings into the ASCII
range beyond the letters A to Z: the Kelvin sign U+212A to k and the dotted
capital I U+0130 to i. -/
def lowerDeltaRanges : List (Nat × Nat × Nat × Int) := [
    (65, 90, 1, 32), (192, 214, 1, 32), (216, 222, 1, 32), (256, 302, 2, 1),
    (304, 304, 1, -199), (306, 310, 2, 1), (313, 327, 2, 1), (330, 374, 2, 1),
    (376, 376, 1, -121), (377, 381, 2, 1), (385, 385, 1, 210), (386, 388, 2, 1),
    (390, 390, 1, 206), (391, 391, 1, 1), (393, 394, 1, 205), (395, 395, 1, 1),
    (398, 398, 1, 79), (399, 399, 1, 202), (400, 400, 1, 203), (401, 401, 1, 1),
    (403, 403, 1, 205), (404, 404, 1, 207), (406, 406, 1, 211), (407, 407, 1, 209),
    (408, 408, 1, 1), (412, 412, 1, 211), (413, 413, 1, 213), (415, 415, 1, 214),
    (416, 420, 2, 1), (422, 422, 1, 218), (423, 423, 1, 1), (425, 425, 1, 218),
    (428, 428, 1, 1), (430, 430, 1, 218), (431, 431, 1, 1), (433, 434, 1, 217),
    (435, 437, 2, 1), (439, 439, 1, 219), (440, 440, 1, 1), (444, 444, 1, 1),
    (452, 452, 1, 2), (453, 453, 1, 1), (455, 455, 1, 2), (456, 456, 1, 1),
    (458, 458, 1, 2), (459, 475, 2, 1), (478, 494, 2, 1), (497, 497, 1, 2),
    (498, 500, 2, 1), (502, 502, 1, -97), (503, 503, 1, -56), (504, 542, 2, 1),
    (544, 544, 1, -130), (546, 562, 2, 1), (570, 570, 1, 10795), (571, 571, 1, 1),
    (573, 573, 1, -163), (574, 574, 1, 10792), (577, 577, 1, 1), (579, 579, 1, -195),
    (580, 580, 1, 69), (581, 581, 1, 71), (582, 590, 2, 1), (880, 882, 2, 1),
    (886, 886, 1, 1), (895, 895, 1, 116), (902, 902, 1, 38), (904, 906, 1, 37),
    (908, 908, 1, 64), (910, 911, 1, 63), (913, 929, 1, 32), (931, 939, 1, 32),
    (975, 975, 1, 8), (984, 1006, 2, 1), (1012, 1012, 1, -60), (1015, 1015, 1, 1),
    (1017, 1017, 1, -7), (1018, 1018, 1, 1), (1021, 1023, 1, -130), (1024, 1039, 1, 80),
    (1040, 1071, 1, 32), (1120, 1152, 2, 1), (1162, 1214, 2, 1), (1216, 1216, 1, 15),
    (1217, 1229, 2, 1), (1232, 1326, 2, 1), (1329, 1366, 1, 48), (4256, 4293, 1, 7264),
    (4295, 4295, 1, 7264), (4301, 4301, 1, 7264), (5024, 5103, 1, 38864), (5104, 5109, 1, 8),
    (7312, 7354, 1, -3008), (7357, 7359, 1, -3008), (7680, 7828, 2, 1), (7838, 7838, 1, -7615),
    (7840, 7934, 2, 1), (7944, 7951, 1, -8), (7960, 7965, 1, -8), (7976, 7983, 1, -8),
    (7992, 7999, 1, -8), (8008, 8013, 1, -8), (8025, 8031, 2, -8), (8040, 8047, 1, -8),
    (8072, 8079, 1, -8), (8088, 8095, 1, -8), (8104, 8111, 1, -8), (8120, 8121, 1, -8),
    (8122, 8123, 1, -74), (8124, 8124, 1, -9), (8136, 8139, 1, -86), (8140, 8140, 1, -9),
    (8152, 8153, 1, -8), (8154, 8155, 1, -100), (8168, 8169, 1, -8), (8170, 8171, 1, -112),
    (8172, 8172, 1, -7), (8184, 8185, 1, -128), (8186, 8187, 1, -126), (8188, 8188, 1, -9),
    (8486, 8486, 1, -7517), (8490, 8490, 1, -8383), (8491, 8491, 1, -8262), (8498, 8498, 1, 28),
    (8544, 8559, 1, 16), (8579, 8579, 1, 1), (9398, 9423, 1, 26), (11264, 11311, 1, 48),
    (11360, 11360, 1, 1), (11362, 11362, 1, -10743), (11363, 11363, 1, -3814), (11364, 11364, 1, -10727),
    (11367, 11371, 2, 1), (11373, 11373, 1, -10780), (11374, 11374, 1, -10749), (11375, 11375, 1, -10783),
    (11376, 11376, 1, -10782), (11378, 11378, 1, 1), (11381, 11381, 1, 1), (11390, 11391, 1, -10815),
    (11392, 11490, 2, 1), (11499, 11501, 2, 1), (11506, 11506, 1, 1), (42560, 42604, 2, 1),
    (42624, 42650, 2, 1), (42786, 42798, 2, 1), (42802, 42862, 2, 1), (42873, 42875, 2, 1),
    (42877, 42877, 1, -35332), (42878, 42886, 2, 1), (42891, 42891, 1, 1), (42893, 42893, 1, -42280),
    (42896, 42898, 2, 1), (42902, 42920, 2, 1), (42922, 42922, 1, -42308), (42923, 42923, 1, -42319),
    (42924, 42924, 1, -42315), (42925, 42925, 1, -42305), (42926, 42926, 1, -42308), (42928, 42928, 1, -42258),
    (42929, 42929, 1, -42282), (42930, 42930, 1, -42261), (42931, 42931, 1, 928), (42932, 42946, 2, 1),
    (42948, 42948, 1, -48), (42949, 42949, 1, -42307), (42950, 42950, 1, -35384), (42951, 42953, 2, 1),
    (42960, 42960, 1, 1), (42966, 42968, 2, 1), (42997, 42997, 1, 1), (65313, 65338, 1, 32),
    (66560, 66599, 1, 40), (66736, 66771, 1, 40), (66928, 66938, 1, 39), (66940, 66954, 1, 39),
    (66956, 66962, 1, 39), (66964, 66965, 1, 39), (68736, 68786, 1, 64), (71840, 71871, 1, 32),
    (93760, 93791, 1, 32), (125184, 125217, 1, 34)]

/-- Find the lowercase delta of a code point in the range table. -/
def lookupLowerDelta (c : Nat) : List (Nat × Nat × Nat × Int) → Option Int
  | [] => none
  | (lo, hi, stride, d) :: rest =>
    if lo ≤ c ∧ c ≤ hi ∧ (c - lo) % stride = 0 then some d else lookupLowerDelta c rest

/-- Model of Go unicode.ToLower: the simple lowercase mapping of a single
character, the character itself when it has no lowercase mapping. -/
def toLowerChar (c : Char) : Char :=
  match lookupLowerDelta c.toNat lowerDeltaRanges with
  | none => c
  | some d => Char.ofNat (Int.toNat ((c.toNat : Int) + d))

/-- Model of Go strings.ToLower: the simple lowercase mapping applied to
every character of the string. -/
def toLowerGo (s : String) : String :=
  String.mk (s.data.map toLowerChar)

/-- Wallet metadata keys, from the constant block of the source. -/
def MetaVersion : String := "version"

def MetaFilename : String := "filename"

def MetaLabel : String := "label"

def MetaTimestamp : String := "tm"

def MetaType : String := "type"

def MetaCoin : String := "coin"

def MetaEncrypted : String := "encrypted"

def MetaCryptoType : String := "cryptoType"

def MetaSeed : String := "seed"

def MetaLastSeed : String := "lastSeed"

def MetaSecrets : String := "secrets"

def MetaBip44Coin : String := "bip44Coin"

def MetaAccountsHash : String := "accountsHash"

def MetaSeedPassphrase : String := "seedPassphrase"

def MetaXPub : String := "xpub"

/-- CoinType is a string type in the source. -/
def CoinType : Type := String

instance : DecidableEq CoinType :=
  inferInstanceAs (DecidableEq String)

/-- CoinTypeSkycoin constant. -/
def CoinTypeSkycoin : CoinType := ("skycoin" : String)

/-- CoinTypeBitcoin constant. -/
def CoinTypeBitcoin : CoinType := ("bitcoin" : String)

/-- Meta holds wallet metadata: a map from string keys to string values,
modelled as presence-aware lookup. -/
def Meta : Type := String → Option String

/-- The empty metadata map. -/
def emptyMeta : Meta := fun _ => none

/-- Go map assignment: store value v under key k. -/
def Meta.set (m : Meta) (k v : String) : Meta :=
  fun q => if q = k then some v else m q

/-- Go map indexing with the zero value: the stored string, or the empty
string when the key is absent. -/
def Meta.get (m : Meta) (k : String) : String :=
  (m k).getD ""

/-- Clone makes a copy of the Meta: a new map holding the same entries. -/
def Meta.Clone (m : Meta) : Meta :=
  fun k => m k

/-- Find returns a key value from the metadata map. -/
def Meta.Find (m : Meta) (k : String) : String :=
  Meta.get m k

/-- SetVersion sets the wallet version. -/
def Meta.SetVersion (m : Meta) (v : String) : Meta :=
  Meta.set m MetaVersion v

/-- SetFilename sets the wallet filename. -/
def Meta.SetFilename (m : Meta) (fn : String) : Meta :=
  Meta.set m MetaFilename fn

/-- SetLabel sets the wallet label. -/
def Meta.SetLabel (m : Meta) (label : String) : Meta :=
  Meta.set m MetaLabel label

/-- LastSeed returns the last seed. -/
def Meta.LastSeed (m : Meta) : String :=
  Meta.get m MetaLastSeed

/-- SetLastSeed sets or updates the last seed. -/
def Meta.SetLastSeed (m : Meta) (lseed : String) : Meta :=
  Meta.set m MetaLastSeed lseed

/-- Seed returns the seed. -/
def Meta.Seed (m : Meta) : String :=
  Meta.get m MetaSeed

/-- SetSeed sets the seed. -/
def Meta.SetSeed (m : Meta) (seed : String) : Meta :=
  Meta.set m MetaSeed seed

/-- SeedPassphrase returns the seed passphrase. -/
def Meta.SeedPassphrase (m : Meta) : String :=
  Meta.get m MetaSeedPassphrase

/-- SetSeedPassphrase sets the seed passphrase. -/
def Meta.SetSeedPassphrase (m : Meta) (p : String) : Meta :=
  Meta.set m MetaSeedPassphrase p

/-- EraseSeeds wipes the seed, last seed and seed passphrase. -/
def Meta.EraseSeeds (m : Meta) : Meta :=
  Meta.SetSeedPassphrase (Meta.SetLastSeed (Meta.SetSeed m "") "") ""

/-- Coin returns the wallet coin type (no validation, a plain read). -/
def Meta.Coin (m : Meta) : CoinType :=
  (Meta.get m MetaCoin : String)

/-- SetCoin sets the wallet coin type (no validation, a plain write). -/
def Meta.SetCoin (m : Meta) (ct : CoinType) : Meta :=
  Meta.set m MetaCoin (ct : String)

/-- Bip44Coin returns the bip44 coin type and a presence flag; an absent key
yields value 0 with flag false, and a stored value that fails to parse as a
32-bit unsigned integer panics, modelled as none. -/
def Meta.Bip44Coin (m : Meta) : Option (Nat × Bool) :=
  match m MetaBip44Coin with
  | none => some (0, false)
  | some c =>
    match parseUintGo (2 ^ 32 - 1) c with
    | (_, some _) => none
    | (x, none) => some (x, true)

/-- SetBip44Coin stores the bip44 coin type code in decimal. -/
def Meta.SetBip44Coin (m : Meta) (ct : Nat) : Meta :=
  Meta.set m MetaBip44Coin (formatUint ct)

/-- Store the encryption flag as the canonical boolean string. -/
def Meta.setIsEncrypted (m : Meta) (encrypt : Bool) : Meta :=
  Meta.set m MetaEncrypted (formatBool encrypt)

/-- Store the crypto type string. -/
def Meta.setCryptoType (m : Meta) (tp : String) : Meta :=
  Meta.set m MetaCryptoType tp

/-- Store the secrets string. -/
def Meta.setSecrets (m : Meta) (s : String) : Meta :=
  Meta.set m MetaSecrets s

/-- SetEncrypted sets the crypto type, the secrets blob and the encrypted
flag, in that order. -/
def Meta.SetEncrypted (m : Meta) (cryptoType : String) (encryptedSecrets : String) : Meta :=
  Meta.setIsEncrypted (Meta.setSecrets (Meta.setCryptoType m cryptoType) encryptedSecrets) true

/-- SetDecrypted clears the encrypted flag, the secrets and the crypto type,
in that order. -/
def Meta.SetDecrypted (m : Meta) : Meta :=
  Meta.setCryptoType (Meta.setSecrets (Meta.setIsEncrypted m false) "") ""

/-- IsEncrypted checks whether the wallet is encrypted: false when the flag
is absent, the parsed boolean when it parses, and a panic, modelled as
none, when the stored string is not a valid boolean. -/
def Meta.IsEncrypted (m : Meta) : Option Bool :=
  match m MetaEncrypted with
  | none => some false
  | some encStr =>
    match parseBoolGo encStr with
    | none => none
    | some b => some b

/-- CryptoType returns the encryption type. -/
def Meta.CryptoType (m : Meta) : String :=
  Meta.get m MetaCryptoType

/-- Secrets returns the encrypted wallet secrets. -/
def Meta.Secrets (m : Meta) : String :=
  Meta.get m MetaSecrets

/-- Timestamp returns the timestamp: the value part of ParseInt on the
stored string, the error being ignored. -/
def Meta.Timestamp (m : Meta) : Int :=
  (parseInt64Go (Meta.get m MetaTimestamp)).1

/-- SetTimestamp stores the timestamp in decimal. -/
def Meta.SetTimestamp (m : Meta) (t : Int) : Meta :=
  Meta.set m MetaTimestamp (formatInt t)

/-- SetXPub sets the xpub key. -/
def Meta.SetXPub (m : Meta) (xpub : String) : Meta :=
  Meta.set m MetaXPub xpub

/-- XPub returns the configured xpub key. -/
def Meta.XPub (m : Meta) : String :=
  Meta.get m MetaXPub

/-- ResolveCoinType normalizes a coin type string to a CoinType constant;
unknown strings produce the invalid coin type error. -/
def ResolveCoinType (s : String) : Except String CoinType :=
  if toLowerGo s = "sky" ∨ toLowerGo s = "skycoin" then Except.ok CoinTypeSkycoin
  else if toLowerGo s = "btc" ∨ toLowerGo s = "bitcoin" then Except.ok CoinTypeBitcoin
  else Except.error "invalid coin type"

example : ResolveCoinType "SKY" = Except.ok CoinTypeSkycoin := rfl
example : ResolveCoinType "eth" = Except.error "invalid coin type" := rfl
example : toLowerGo "SKY" = "sky" := by decide
example : toLowerGo "BİTCOIN" = "bitcoin" := by decide
example : ResolveCoinType "SKY" = Except.ok CoinTypeSkycoin := rfl
example : ResolveCoinType "BİTCOIN" = Except.ok CoinTypeBitcoin := rfl
example : Meta.IsEncrypted emptyMeta = some false := by decide
example : parseInt64Go "9223372036854775808" = ((2 : Int) ^ 63 - 1, some ParseErr.rangeErr) := by decide
example : parseInt64Go "" = (0, some ParseErr.syntaxErr) := by decide
example : parseInt64Go "-17" = (-17, none) := by decide
example : formatInt (-17) = "-17" := by decide
example : parseUintGo (2 ^ 32 - 1) "4294967296" = (2 ^ 32 - 1, some ParseErr.rangeErr) := by decide
example : parseUintGo (2 ^ 32 - 1) "0" = (0, none) := by decide

/-- A store of metadata maps indexed by handles, modelling the Go heap view
in which a Meta value is a reference to a shared map: mutating through one
handle must not change the map seen through another handle. -/
structure World where
  store : Nat → Meta
  next : Nat

/-- Clone at the heap level: allocate a fresh handle holding a copy of the
entries of the map at handle r, exactly as the copy loop of Clone does. -/
def cloneRef (w : World) (r : Nat) : World × Nat :=
  (World.mk (fun h => if h = w.next then Meta.Clone (w.store r) else w.store h) (w.next + 1),
   w.next)

/-- Apply any of the in-place mutating methods, abstracted as a function on
Meta, through the handle r, leaving every other handle untouched. -/
def mutateRef (w : World) (r : Nat) (f : Meta → Meta) : World :=
  World.mk (fun h => if h = r then f (w.store h) else w.store h) w.next

/-- C1: after SetEncrypted with algorithm a and blob b, IsEncrypted reports
true, CryptoType reports a and Secrets reports b; after a subsequent
SetDecrypted, IsEncrypted reports false and CryptoType and Secrets report
the empty string. -/
theorem setEncrypted_setDecrypted_roundtrip (m : Meta) (a b : String) :
    Meta.IsEncrypted (Meta.SetEncrypted m a b) = some true ∧
    Meta.CryptoType (Meta.SetEncrypted m a b) = a ∧
    Meta.Secrets (Meta.SetEncrypted m a b) = b ∧
    Meta.IsEncrypted (Meta.SetDecrypted (Meta.SetEncrypted m a b)) = some false ∧
    Meta.CryptoType (Meta.SetDecrypted (Meta.SetEncrypted m a b)) = "" ∧
    Meta.Secrets (Meta.SetDecrypted (Meta.SetEncrypted m a b)) = "" :=
  ⟨rfl, rfl, rfl, rfl, rfl, rfl⟩

/-- C2: a stored encrypted value that is not a valid boolean makes
IsEncrypted panic (modelled as none), and a stored bip44Coin value that
does not parse as a 32-bit unsigned integer makes Bip44Coin panic
(modelled as none); neither returns a default or an absence result. -/
theorem malformed_fields_fail_fast (m1 m2 : Meta) (s c : String) :
    (m1 MetaEncrypted = some s → parseBoolGo s = none → Meta.IsEncrypted m1 = none) ∧
    (m2 MetaBip44Coin = some c → (parseUintGo (2 ^ 32 - 1) c).2 ≠ none →
      Meta.Bip44Coin m2 = none) := by
  constructor
  · intro hs hps
    unfold Meta.IsEncrypted
    simp only [hs, hps]
  · intro hc hpc
    unfold Meta.Bip44Coin
    simp only [hc]
    cases hp : parseUintGo (2 ^ 32 - 1) c with
    | mk x e =>
      rw [hp] at hpc
      cases e with
      | none => exact absurd rfl hpc
      | some err => rfl

/-- Record with a non-boolean encrypted value and a non-numeric bip44Coin
value, for exercising the fail-fast paths. -/
def badMeta : Meta :=
  Meta.set (Meta.set emptyMeta MetaEncrypted "yes") MetaBip44Coin "abc"

/-- Witness for C2 at a concrete corrupted record. -/
theorem malformed_fields_fail_fast_witness :
    Meta.IsEncrypted badMeta = none ∧ Meta.Bip44Coin badMeta = none :=
  ⟨(malformed_fields_fail_fast badMeta badMeta "yes" "abc").1 (by decide) (by decide),
   (malformed_fields_fail_fast badMeta badMeta "yes" "abc").2 (by decide) (by decide)⟩

/-- C3: inputs whose lower-casing is sky or skycoin resolve to
CoinTypeSkycoin, inputs whose lower-casing is btc or bitcoin resolve to
CoinTypeBitcoin, and every other input fails with the invalid coin type
error. -/
theorem resolveCoinType_spec (s : String) :
    (toLowerGo s = "sky" ∨ toLowerGo s = "skycoin" →
      ResolveCoinType s = Except.ok CoinTypeSkycoin) ∧
    (toLowerGo s = "btc" ∨ toLowerGo s = "bitcoin" →
      ResolveCoinType s = Except.ok CoinTypeBitcoin) ∧
    (¬(toLowerGo s = "sky" ∨ toLowerGo s = "skycoin") →
      ¬(toLowerGo s = "btc" ∨ toLowerGo s = "bitcoin") →
      ResolveCoinType s = Except.error "invalid coin type") := by
  unfold ResolveCoinType
  refine ⟨fun h => ?_, fun h => ?_, fun h1 h2 => ?_⟩
  · rw [if_pos h]
  · have h1 : ¬(toLowerGo s = "sky" ∨ toLowerGo s = "skycoin") := by
      rcases h with h | h <;> rw [h] <;> decide
    rw [if_neg h1, if_pos h]
  · rw [if_neg h1, if_neg h2]

/-- Witness for C3 at concrete inputs. -/
theorem resolveCoinType_spec_witness :
    ResolveCoinType "SKY" = Except.ok CoinTypeSkycoin ∧
    ResolveCoinType "eth" = Except.error "invalid coin type" :=
  ⟨(resolveCoinType_spec "SKY").1 (Or.inl (by decide)),
   (resolveCoinType_spec "eth").2.2 (by decide) (by decide)⟩

/-- C4: a clone equals the original key-for-key at the moment of cloning,
and through the heap model, any in-place mutation applied through the
original handle leaves the map at the clone handle unchanged, and any
mutation applied through the clone handle leaves the map at the original
handle unchanged. -/
theorem clone_independence (w : World) (r : Nat) (hr : r < w.next) (f g : Meta → Meta) :
    (∀ k, ((cloneRef w r).1.store (cloneRef w r).2) k = (w.store r) k) ∧
    (∀ k, ((mutateRef (cloneRef w r).1 r f).store (cloneRef w r).2) k
        = ((cloneRef w r).1.store (cloneRef w r).2) k) ∧
    (∀ k, ((mutateRef (cloneRef w r).1 (cloneRef w r).2 g).store r) k
        = ((cloneRef w r).1.store r) k) := by
  have hne : r ≠ w.next := Nat.ne_of_lt hr
  have hne2 : w.next ≠ r := hne.symm
  unfold cloneRef mutateRef Meta.Clone
  simp [hne, hne2]

/-- World with one live record at handle 0, for the clone witness. -/
def w0 : World :=
  World.mk (fun _ => Meta.set emptyMeta MetaLabel "a") 1

/-- Witness for C4: in the one-record world, relabelling through the
original handle does not change the label seen through the clone handle. -/
theorem clone_independence_witness :
    ((mutateRef (cloneRef w0 0).1 0 (fun m => Meta.SetLabel m "b")).store (cloneRef w0 0).2)
        MetaLabel
      = ((cloneRef w0 0).1.store (cloneRef w0 0).2) MetaLabel :=
  (clone_independence w0 0 (by decide) (fun m => Meta.SetLabel m "b") id).2.1 MetaLabel

/-- C5: EraseSeeds stores the empty string under the seed, last seed and
seed passphrase keys, leaves every other key unchanged (in particular the
secrets and crypto type reads), reads back empty through the accessors,
and is idempotent key-for-key. -/
theorem eraseSeeds_spec (m : Meta) :
    Meta.Seed (Meta.EraseSeeds m) = "" ∧
    Meta.LastSeed (Meta.EraseSeeds m) = "" ∧
    Meta.SeedPassphrase (Meta.EraseSeeds m) = "" ∧
    (Meta.EraseSeeds m) MetaSeed = some "" ∧
    (Meta.EraseSeeds m) MetaLastSeed = some "" ∧
    (Meta.EraseSeeds m) MetaSeedPassphrase = some "" ∧
    Meta.Secrets (Meta.EraseSeeds m) = Meta.Secrets m ∧
    Meta.CryptoType (Meta.EraseSeeds m) = Meta.CryptoType m ∧
    (∀ k, k ≠ MetaSeed → k ≠ MetaLastSeed → k ≠ MetaSeedPassphrase →
      (Meta.EraseSeeds m) k = m k) ∧
    (∀ k, (Meta.EraseSeeds (Meta.EraseSeeds m)) k = (Meta.EraseSeeds m) k) := by
  refine ⟨rfl, rfl, rfl, rfl, rfl, rfl, rfl, rfl, fun k h1 h2 h3 => ?_, fun k => ?_⟩
  · unfold Meta.EraseSeeds Meta.SetSeed Meta.SetLastSeed Meta.SetSeedPassphrase Meta.set
    rw [if_neg h3, if_neg h2, if_neg h1]
  · by_cases h3 : k = MetaSeedPassphrase
    · by_cases h2 : k = MetaLastSeed <;> by_cases h1 : k = MetaSeed <;>
        simp [Meta.EraseSeeds, Meta.SetSeed, Meta.SetLastSeed, Meta.SetSeedPassphrase,
          Meta.set, h1, h2, h3]
    · by_cases h2 : k = MetaLastSeed <;> by_cases h1 : k = MetaSeed <;>
        simp [Meta.EraseSeeds, Meta.SetSeed, Meta.SetLastSeed, Meta.SetSeedPassphrase,
          Meta.set, h1, h2, h3]

/-- Record holding a secrets blob and a seed, for the erase witness. -/
def m5 : Meta :=
  Meta.set (Meta.set emptyMeta MetaSecrets "blob") MetaSeed "s33d"

/-- Witness for C5: erasing leaves the secrets key untouched and blanks the
seed read. -/
theorem eraseSeeds_spec_witness :
    (Meta.EraseSeeds m5) MetaSecrets = m5 MetaSecrets ∧
    Meta.Seed (Meta.EraseSeeds m5) = "" :=
  ⟨(eraseSeeds_spec m5).2.2.2.2.2.2.2.2.1 MetaSecrets (by decide) (by decide) (by decide),
   (eraseSeeds_spec m5).1⟩

/-- C6: a record whose bip44Coin key is absent reports value 0 with the
presence flag false, while a record after SetBip44Coin 0 reports value 0
with the presence flag true. -/
theorem bip44_presence (m : Meta) (h : m MetaBip44Coin = none) :
    Meta.Bip44Coin m = some (0, false) ∧
    Meta.Bip44Coin (Meta.SetBip44Coin m 0) = some (0, true) := by
  constructor
  · unfold Meta.Bip44Coin
    simp only [h]
  · rfl

/-- Witness for C6 at the empty record. -/
theorem bip44_presence_witness :
    Meta.Bip44Coin emptyMeta = some (0, false) ∧
    Meta.Bip44Coin (Meta.SetBip44Coin emptyMeta 0) = some (0, true) :=
  bip44_presence emptyMeta rfl

/-- C7: a record whose encrypted key is absent reports IsEncrypted false
without an error. -/
theorem isEncrypted_default (m : Meta) (h : m MetaEncrypted = none) :
    Meta.IsEncrypted m = some false := by
  unfold Meta.IsEncrypted
  simp only [h]

/-- Witness for C7 at the freshly constructed empty record. -/
theorem isEncrypted_default_witness : Meta.IsEncrypted emptyMeta = some false :=
  isEncrypted_default emptyMeta rfl

/-- C8 counterexample: the timestamp is not stored under the key named
timestamp; after SetTimestamp 5 on the empty record, Find of that key
returns the empty string, not the decimal encoding of 5. -/
theorem timestamp_key_counterexample :
    Meta.Find (Meta.SetTimestamp emptyMeta 5) "timestamp" ≠ formatInt 5 := by decide

/-- C8 amended: the creation timestamp is stored under the recognized key
tm (the MetaTimestamp constant), and after SetTimestamp t, Find of that key
returns the decimal string encoding of t, while Find of the key named
timestamp is unaffected, for every record and every t. -/
theorem timestamp_key_tm (m : Meta) (t : Int) :
    MetaTimestamp = "tm" ∧ Meta.Find (Meta.SetTimestamp m t) MetaTimestamp = formatInt t ∧
    Meta.Find (Meta.SetTimestamp m t) "timestamp" = Meta.Find m "timestamp" :=
  ⟨rfl, rfl, rfl⟩

/-- Record whose stored timestamp is one past the signed 64-bit maximum. -/
def m9 : Meta :=
  Meta.set emptyMeta MetaTimestamp "9223372036854775808"

/-- C9: a stored timestamp that is syntactically numeric but out of the
signed 64-bit range does not parse (ParseInt reports a range error), yet
Timestamp returns the clamped maximum, not 0 as the source comment and the
claim state. -/
theorem timestamp_range_clamp :
    (parseInt64Go "9223372036854775808").2 ≠ none ∧
    Meta.Timestamp m9 = 9223372036854775807 := by decide

/-- C10: SetCoin followed by Coin returns the stored string verbatim, with
no validation or normalization, for every string including ones outside
the coin type enumeration. -/
theorem coin_roundtrip_unvalidated (m : Meta) (s : String) :
    Meta.Coin (Meta.SetCoin m s) = s :=
  rfl
